import Mathlib

/-!
Verification development for the backlog-content evaluator service.

The definitions below are a shallow embedding of the evaluation
orchestration core (`src/evaluators.py`, weights from `src/config.py`).
Python floats are modelled as rationals; `round(x, 2)` is modelled as
half-up rounding to two decimals (the claims never exercise half-way or
binary-representation corner cases).  LLM gateway calls are modelled by
passing the call outcome (`Except String String`: error after retries, or
the returned text) as an explicit argument, and the per-metric random
jitter of the validation protocol as an explicit `Nat → ℚ` argument.
-/

/-- A decoded JSON value, as produced by `json.loads`.  Objects keep the
textual field order; duplicate keys are resolved last-wins at lookup time,
matching Python dict construction. -/
inductive Json where
  | null
  | bool (b : Bool)
  | num (q : ℚ)
  | str (s : String)
  | arr (elems : List Json)
  | obj (fields : List (String × Json))
deriving Repr, Inhabited

/-- Characters that must not appear literally in this file's strings. -/
def braceO : Char := Char.ofNat 123

def braceC : Char := Char.ofNat 125

def quoteC : Char := Char.ofNat 34

def backslashC : Char := Char.ofNat 92

def nlC : Char := Char.ofNat 10

def hashC : Char := Char.ofNat 35

/-- JSON insignificant whitespace (space, tab, newline, carriage return). -/
def isJsonWs (c : Char) : Bool :=
  c = Char.ofNat 32 || c = Char.ofNat 9 || c = Char.ofNat 10 || c = Char.ofNat 13

def skipWs (cs : List Char) : List Char := cs.dropWhile isJsonWs

/-- Digits of a natural number literal folded into its value. -/
def digitsToNat (ds : List Char) : Nat :=
  ds.foldl (fun n c => n * 10 + (c.toNat - 48)) 0

/-- Decode one string-literal escape character (after the backslash). -/
def escChar (c : Char) : Option Char :=
  if c = quoteC then some quoteC
  else if c = backslashC then some backslashC
  else if c = Char.ofNat 47 then some (Char.ofNat 47)
  else if c = Char.ofNat 98 then some (Char.ofNat 8)
  else if c = Char.ofNat 102 then some (Char.ofNat 12)
  else if c = Char.ofNat 110 then some (Char.ofNat 10)
  else if c = Char.ofNat 114 then some (Char.ofNat 13)
  else if c = Char.ofNat 116 then some (Char.ofNat 9)
  else none

def hexVal (c : Char) : Option Nat :=
  if c.isDigit then some (c.toNat - 48)
  else if 97 ≤ c.toNat ∧ c.toNat ≤ 102 then some (c.toNat - 87)
  else if 65 ≤ c.toNat ∧ c.toNat ≤ 70 then some (c.toNat - 55)
  else none

/-- Body of a JSON string literal (opening quote already consumed). -/
def parseStringAux : List Char → List Char → Option (String × List Char)
  | acc, c :: rest =>
    if c = quoteC then some (acc.reverse.asString, rest)
    else if c = backslashC then
      match rest with
      | e :: rest2 =>
        if e = Char.ofNat 117 then
          match rest2 with
          | h1 :: h2 :: h3 :: h4 :: rest3 =>
            match hexVal h1, hexVal h2, hexVal h3, hexVal h4 with
            | some a, some b, some c2, some d =>
              parseStringAux (Char.ofNat (((a * 16 + b) * 16 + c2) * 16 + d) :: acc) rest3
            | _, _, _, _ => none
          | _ => none
        else
          match escChar e with
          | some ec => parseStringAux (ec :: acc) rest2
          | none => none
      | [] => none
    else parseStringAux (c :: acc) rest
  | _, [] => none

def parseJString (cs : List Char) : Option (String × List Char) :=
  match cs with
  | c :: rest => if c = quoteC then parseStringAux [] rest else none
  | [] => none

/-- JSON number literal: optional minus, integer part without leading
zeros, optional fraction, optional exponent. -/
def parseNumber (cs : List Char) : Option (ℚ × List Char) :=
  let (neg, cs1) :=
    match cs with
    | c :: rest => if c = Char.ofNat 45 then (true, rest) else (false, cs)
    | [] => (false, cs)
  let intDs := cs1.takeWhile Char.isDigit
  let cs2 := cs1.dropWhile Char.isDigit
  if intDs.isEmpty then none
  else if intDs.length > 1 ∧ intDs.headD (Char.ofNat 48) = Char.ofNat 48 then none
  else
    let ipart : ℚ := (digitsToNat intDs : ℚ)
    let (fval, cs3) :=
      match cs2 with
      | c :: rest =>
        if c = Char.ofNat 46 then
          let fds := rest.takeWhile Char.isDigit
          let rest2 := rest.dropWhile Char.isDigit
          if fds.isEmpty then (none, cs2)
          else (some ((digitsToNat fds : ℚ) / ((10 : ℚ) ^ fds.length)), rest2)
        else (some 0, cs2)
      | [] => (some 0, cs2)
    match fval with
    | none => none
    | some f =>
      let base : ℚ := ipart + f
      let base := if neg then -base else base
      match cs3 with
      | c :: rest =>
        if c = Char.ofNat 101 ∨ c = Char.ofNat 69 then
          let (eneg, rest2) :=
            match rest with
            | d :: rest2 =>
              if d = Char.ofNat 45 then (true, rest2)
              else if d = Char.ofNat 43 then (false, rest2)
              else (false, rest)
            | [] => (false, rest)
          let eds := rest2.takeWhile Char.isDigit
          let rest3 := rest2.dropWhile Char.isDigit
          if eds.isEmpty then none
          else
            let e := digitsToNat eds
            let v := if eneg then base / ((10 : ℚ) ^ e) else base * ((10 : ℚ) ^ e)
            some (v, rest3)
        else some (base, cs3)
      | [] => some (base, cs3)

mutual

/-- Parse one JSON value from the front of the input (leading whitespace
allowed).  `fuel` strictly decreases on every recursive call;
`jsonDecode` supplies enough for any input it is given. -/
def parseValue : Nat → List Char → Option (Json × List Char)
  | 0, _ => none
  | fuel + 1, cs =>
    match skipWs cs with
    | [] => none
    | c :: rest =>
      if c = braceO then
        match skipWs rest with
        | c2 :: rest2 =>
          if c2 = braceC then some (Json.obj [], rest2)
          else
            match parseMemberSeq fuel (c2 :: rest2) with
            | some (fields, rest3) => some (Json.obj fields, rest3)
            | none => none
        | [] => none
      else if c = Char.ofNat 91 then
        match skipWs rest with
        | c2 :: rest2 =>
          if c2 = Char.ofNat 93 then some (Json.arr [], rest2)
          else
            match parseElemSeq fuel (c2 :: rest2) with
            | some (elems, rest3) => some (Json.arr elems, rest3)
            | none => none
        | [] => none
      else if c = quoteC then
        match parseStringAux [] rest with
        | some (s, rest2) => some (Json.str s, rest2)
        | none => none
      else if c = Char.ofNat 116 then
        match rest with
        | r :: u :: e :: rest2 =>
          if r = Char.ofNat 114 ∧ u = Char.ofNat 117 ∧ e = Char.ofNat 101 then
            some (Json.bool true, rest2)
          else none
        | _ => none
      else if c = Char.ofNat 102 then
        match rest with
        | a :: l :: s :: e :: rest2 =>
          if a = Char.ofNat 97 ∧ l = Char.ofNat 108 ∧ s = Char.ofNat 115 ∧ e = Char.ofNat 101 then
            some (Json.bool false, rest2)
          else none
        | _ => none
      else if c = Char.ofNat 110 then
        match rest with
        | u :: l1 :: l2 :: rest2 =>
          if u = Char.ofNat 117 ∧ l1 = Char.ofNat 108 ∧ l2 = Char.ofNat 108 then
            some (Json.null, rest2)
          else none
        | _ => none
      else
        match parseNumber (c :: rest) with
        | some (q, rest2) => some (Json.num q, rest2)
        | none => none

/-- A non-empty `member (\x2c member)* \x7d` sequence of an object. -/
def parseMemberSeq : Nat → List Char → Option (List (String × Json) × List Char)
  | 0, _ => none
  | fuel + 1, cs =>
    match parseJString (skipWs cs) with
    | none => none
    | some (key, rest2) =>
      match skipWs rest2 with
      | c2 :: rest3 =>
        if c2 = Char.ofNat 58 then
          match parseValue fuel rest3 with
          | none => none
          | some (v, rest4) =>
            match skipWs rest4 with
            | c3 :: rest5 =>
              if c3 = braceC then some ([(key, v)], rest5)
              else if c3 = Char.ofNat 44 then
                match parseMemberSeq fuel rest5 with
                | some (fields, rest6) => some ((key, v) :: fields, rest6)
                | none => none
              else none
            | [] => none
        else none
      | [] => none

/-- A non-empty `value (\x2c value)* ]` sequence of an array. -/
def parseElemSeq : Nat → List Char → Option (List Json × List Char)
  | 0, _ => none
  | fuel + 1, cs =>
    match parseValue fuel cs with
    | none => none
    | some (v, rest2) =>
      match skipWs rest2 with
      | c2 :: rest3 =>
        if c2 = Char.ofNat 93 then some ([v], rest3)
        else if c2 = Char.ofNat 44 then
          match parseElemSeq fuel rest3 with
          | some (elems, rest4) => some (v :: elems, rest4)
          | none => none
        else none
      | [] => none

end

/-- Model of `json.loads`: parse one value, require only whitespace after
it.  The error strings stand for the `json.JSONDecodeError` message. -/
def jsonDecode (s : String) : Except String Json :=
  let cs := s.toList
  match parseValue (cs.length + 8) cs with
  | some (j, rest) =>
    if (skipWs rest).isEmpty then Except.ok j else Except.error "Extra data"
  | none => Except.error "Expecting value"

/-! ### Python string helpers -/

/-- Python `str.strip()` on the character list of a string. -/
def pyStrip (cs : List Char) : List Char :=
  (cs.dropWhile Char.isWhitespace).rdropWhile Char.isWhitespace

/-- Python `str.find(c)`: index of the first occurrence, `-1` if absent. -/
def pyFind (cs : List Char) (c : Char) : Int :=
  match cs.findIdx? (fun x => x = c) with
  | some i => (i : Int)
  | none => -1

/-- Python `str.rfind(c)`: index of the last occurrence, `-1` if absent. -/
def pyRfind (cs : List Char) (c : Char) : Int :=
  match cs.reverse.findIdx? (fun x => x = c) with
  | some i => ((cs.length - 1 - i : Nat) : Int)
  | none => -1

/-- Python `str.lower()` (ASCII case folding suffices here). -/
def pyLower (s : String) : List Char := s.toList.map Char.toLower

/-- Python `needle in haystack` for strings. -/
def pyInStr (needle : String) (hay : List Char) : Bool :=
  decide (needle.toList <:+: hay)

/-! ### Response parser (§4.2): first-brace / last-brace extraction -/

/-- The slicing step of `_handle_evaluation_prompt` /
`_parse_validation_response`: `json_start = text.find(braceO)`,
`json_end = text.rfind(braceC) + 1`; slice `text[json_start:json_end]`
when `json_start != -1 and json_end > json_start`. -/
def extractSlice (cs : List Char) : Option (List Char) :=
  let json_start : Int := pyFind cs braceO
  let json_end : Int := pyRfind cs braceC + 1
  if json_start ≠ -1 ∧ json_end > json_start then
    some ((cs.drop json_start.toNat).take (json_end - json_start).toNat)
  else none

inductive ParseErr where
  | noJsonFound
  | malformedJson (substring : String) (msg : String)
deriving Repr, DecidableEq

/-- The parser contract of §4.2 (`extract_json`): trim, slice between the
first opening and last closing brace, decode; the same slicing and
decoding steps the orchestrator uses inline. -/
def extract_json (raw : String) : Except ParseErr Json :=
  let t := pyStrip raw.toList
  match extractSlice t with
  | none => Except.error ParseErr.noJsonFound
  | some sl =>
    match jsonDecode sl.asString with
    | Except.ok j => Except.ok j
    | Except.error e => Except.error (ParseErr.malformedJson sl.asString e)

/-! ### Data model (`models.py`) -/

structure GeneratedContent where
  title : String
  formatted_output : String

structure EvaluationInput where
  session_id : String
  backlog_type : String
  user_prompt : String
  system_prompt : String
  generated_content : GeneratedContent
  context : List String
  template : String

/-- One metric's score.  `reasoning = none` models the field being absent
from serialized output. -/
structure MetricScore where
  metric : String
  score : ℚ
  reasoning : Option String
  confidence : ℚ
deriving Repr, DecidableEq

structure EvaluationMetadata where
  backlog_type : String
  content_length : Nat
  context_items : Nat
deriving Repr, DecidableEq

structure EvaluationResult where
  session_id : String
  overall_score : ℚ
  metric_scores : List MetricScore
  summary : String
  recommendations : String
  evaluation_timestamp : String
  evaluation_metadata : EvaluationMetadata

/-! ### Numeric model -/

/-- Python `round(x, 2)` modelled as half-up rounding to two decimals. -/
def pyRound2 (x : ℚ) : ℚ := (((x * 100 + 1 / 2).floor : ℤ) : ℚ) / 100

/-- `min(max(x, 0.0), 1.0)`. -/
def clamp01 (x : ℚ) : ℚ := min (max x 0) 1

/-- Python `float(v)` on a decoded JSON value: numbers pass through,
booleans are ints in Python, numeric strings are parsed, everything else
raises (`TypeError` / `ValueError`), modelled as `Except.error`. -/
def pyFloat (v : Json) : Except String ℚ :=
  match v with
  | Json.num q => Except.ok q
  | Json.bool b => Except.ok (if b then 1 else 0)
  | Json.str s =>
    match parseNumber (pyStrip s.toList) with
    | some (q, rest) =>
      if rest.isEmpty then Except.ok q
      else Except.error ("could not convert string to float: " ++ s)
    | none => Except.error ("could not convert string to float: " ++ s)
  | _ => Except.error "float() argument must be a string or a real number"

/-- Pydantic validation of the optional `reasoning` field of
`MetricScore`: a string passes, JSON null is `None`, anything else is a
validation error. -/
def pyOptStr (v : Json) : Except String (Option String) :=
  match v with
  | Json.str s => Except.ok (some s)
  | Json.null => Except.ok none
  | _ => Except.error "Input should be a valid string"

/-- Lookup in a decoded JSON object; duplicate keys resolve last-wins as
in a Python dict built by `json.loads`. -/
def jlookup (fields : List (String × Json)) (k : String) : Option Json :=
  (fields.reverse.find? (fun p => p.1 = k)).map (fun p => p.2)

/-! ### Configuration (`config.py`) -/

/-- `METRIC_WEIGHTS` from `config.py`. -/
def METRIC_WEIGHTS : List (String × ℚ) :=
  [("relevance", 0.18), ("accuracy", 0.15), ("completeness", 0.15),
   ("clarity", 0.12), ("structure", 0.08), ("consistency", 0.08),
   ("hallucination_detection", 0.12), ("context_adherence", 0.08),
   ("factual_grounding", 0.04)]

/-- The canonical metric list (`expected_metrics` in `evaluators.py`). -/
def expected_metrics : List String :=
  ["relevance", "accuracy", "completeness", "clarity", "structure",
   "consistency", "hallucination_detection", "context_adherence",
   "factual_grounding"]

/-! ### Metric score normalizer (per-metric logic of
`_handle_evaluation_prompt`, lines 189–235) -/

/-- Fallback metric set of `_get_default_metric_scores`. -/
def get_default_metric_scores (error_message : String) : List MetricScore :=
  expected_metrics.map (fun metric =>
    { metric := metric
      score := 0.5
      reasoning := some error_message
      confidence := 0.1 })

/-- The raw value of the bare-score branch: `float(metric_data) if
isinstance(metric_data, (int, float)) else 0.5` (Python booleans are
ints, so they pass the isinstance check). -/
def bareValue (metric_data : Json) : ℚ :=
  match metric_data with
  | Json.num q => q
  | Json.bool b => if b then 1 else 0
  | _ => 0.5

/-- Construction of the bare-score `MetricScore`: placeholder reasoning
below 0.65, none otherwise, fixed confidence 0.7. -/
def mkBareScore (metric_name : String) (score_value : ℚ) : Except String MetricScore :=
  if score_value < 0.65 then
    Except.ok
      { metric := metric_name
        score := score_value
        reasoning := some "Score provided without detailed reasoning"
        confidence := 0.7 }
  else
    Except.ok
      { metric := metric_name
        score := score_value
        reasoning := none
        confidence := 0.7 }

/-- The `else` branch of the per-metric loop handling a bare score
value: clamp, round, fixed confidence 0.7. -/
def bareScore (metric_name : String) (metric_data : Json) : Except String MetricScore :=
  mkBareScore metric_name (pyRound2 (clamp01 (bareValue metric_data)))

/-- Normalize one metric's raw payload (`data`, `none` when the metric is
absent from the decoded object) into a `MetricScore`.  An `Except.error`
models a Python exception escaping this iteration of the loop
(`float(...)` conversion failure or pydantic rejecting `reasoning`). -/
def normalizeMetric (metric_name : String) (data : Option Json) :
    Except String MetricScore :=
  match data with
  | none =>
    Except.ok
      { metric := metric_name
        score := 0.5
        reasoning := some ("Metric " ++ metric_name ++ " not found in AI response")
        confidence := 0.3 }
  | some metric_data =>
    match metric_data with
    | Json.obj fields =>
      match jlookup fields "score" with
      | some scoreJ =>
        match pyFloat scoreJ with
        | Except.error e => Except.error e
        | Except.ok sv =>
          let score_value := pyRound2 (clamp01 sv)
          match pyFloat ((jlookup fields "confidence").getD (Json.num 0.8)) with
          | Except.error e => Except.error e
          | Except.ok cv =>
            let confidence := clamp01 cv
            if score_value < 0.65 then
              match pyOptStr ((jlookup fields "reasoning").getD
                  (Json.str "No reasoning provided")) with
              | Except.error e => Except.error e
              | Except.ok r =>
                Except.ok
                  { metric := metric_name
                    score := score_value
                    reasoning := r
                    confidence := confidence }
            else
              Except.ok
                { metric := metric_name
                  score := score_value
                  reasoning := none
                  confidence := confidence }
      | none => bareScore metric_name metric_data
    | _ => bareScore metric_name metric_data

/-- The `for metric_name in expected_metrics` loop: one `MetricScore` per
canonical metric, aborting at the first Python exception. -/
def buildMetricScores (fields : List (String × Json)) :
    Except String (List MetricScore) :=
  go expected_metrics
where
  go : List String → Except String (List MetricScore)
    | [] => Except.ok []
    | n :: ns =>
      match normalizeMetric n (jlookup fields n) with
      | Except.error e => Except.error e
      | Except.ok m =>
        match go ns with
        | Except.error e => Except.error e
        | Except.ok ms => Except.ok (m :: ms)

/-! ### Protocol B: free-form evaluation (`_handle_evaluation_prompt`) -/

/-- `_handle_evaluation_prompt`, as a function of the gateway call
outcome.  A gateway error is caught by the enclosing
`except Exception` (line 247). -/
def handle_evaluation_prompt (resp : Except String String) : List MetricScore :=
  match resp with
  | Except.error e => get_default_metric_scores ("Evaluation error: " ++ e)
  | Except.ok raw =>
    let response_content := pyStrip raw.toList
    if response_content.isEmpty then
      get_default_metric_scores "Empty response from AI"
    else
      match extractSlice response_content with
      | none => get_default_metric_scores "No JSON found in response"
      | some json_content =>
        match jsonDecode json_content.asString with
        | Except.error e =>
          get_default_metric_scores ("JSON parsing error: " ++ e)
        | Except.ok (Json.obj fields) =>
          match buildMetricScores fields with
          | Except.error e =>
            get_default_metric_scores ("Evaluation error: " ++ e)
          | Except.ok metric_scores =>
            if metric_scores.isEmpty then
              get_default_metric_scores "No valid metric scores found in response"
            else metric_scores
        | Except.ok _ =>
          -- Unreachable: the extracted slice begins with an opening brace,
          -- so a successful decode yields an object.
          get_default_metric_scores "Evaluation error: response is not an object"

/-! ### Protocol A: structured validation -/

/-- `_parse_validation_response`: always returns a dict with `proceed`
and `reason` (the decoded object itself when it has both keys). -/
def parse_validation_response (response_content : String) : List (String × Json) :=
  let t := pyStrip response_content.toList
  match extractSlice t with
  | none =>
    [("proceed", Json.bool false),
     ("reason", Json.str "No valid JSON found in validation response")]
  | some json_content =>
    match jsonDecode json_content.asString with
    | Except.error e =>
      [("proceed", Json.bool false),
       ("reason", Json.str ("JSON parsing error: " ++ e))]
    | Except.ok (Json.obj fields) =>
      if ((jlookup fields "proceed").isSome && (jlookup fields "reason").isSome) then
        fields
      else
        [("proceed", Json.bool false),
         ("reason", Json.str "Invalid response format from validation agent")]
    | Except.ok _ =>
      -- Unreachable: the extracted slice begins with an opening brace.
      [("proceed", Json.bool false),
       ("reason", Json.str "Invalid response format from validation agent")]

/-- Python truthiness of a decoded JSON value. -/
def pyTruthy (v : Json) : Bool :=
  match v with
  | Json.null => false
  | Json.bool b => b
  | Json.num q => q ≠ 0
  | Json.str s => s.length ≠ 0
  | Json.arr l => !l.isEmpty
  | Json.obj f => !f.isEmpty

/-- One metric of `_convert_validation_to_metrics`: base score plus the
random variation, clamped and rounded; reasoning attached only below
0.65 (pydantic validates it only when attached). -/
def mkValidationScore (metric_name : String) (base confidence : ℚ)
    (reasonJ : Json) (variation : ℚ) : Except String MetricScore :=
  let final_score := pyRound2 (clamp01 (base + variation))
  if final_score < 0.65 then
    match pyOptStr reasonJ with
    | Except.error e => Except.error e
    | Except.ok r =>
      Except.ok
        { metric := metric_name
          score := final_score
          reasoning := r
          confidence := confidence }
  else
    Except.ok
      { metric := metric_name
        score := final_score
        reasoning := none
        confidence := confidence }

/-- `_convert_validation_to_metrics`; `jitter i` is the `i`-th draw of
`random.uniform(-0.05, 0.05)`. -/
def convert_validation_to_metrics (validation_result : List (String × Json))
    (jitter : Nat → ℚ) : Except String (List MetricScore) :=
  let proceed := pyTruthy ((jlookup validation_result "proceed").getD (Json.bool false))
  let reasonJ := (jlookup validation_result "reason").getD (Json.str "No reason provided")
  let base : ℚ := if proceed then 0.85 else 0.35
  let confidence : ℚ := if proceed then 0.9 else 0.8
  go base confidence reasonJ 0 expected_metrics
where
  go (base confidence : ℚ) (reasonJ : Json) :
      Nat → List String → Except String (List MetricScore)
    | _, [] => Except.ok []
    | i, n :: ns =>
      match mkValidationScore n base confidence reasonJ (jitter i) with
      | Except.error e => Except.error e
      | Except.ok m =>
        match go base confidence reasonJ (i + 1) ns with
        | Except.error e => Except.error e
        | Except.ok ms => Except.ok (m :: ms)

/-- `_handle_validation_prompt` as a function of the gateway outcome; all
exceptions are caught and mapped to the fallback set. -/
def handle_validation_prompt (resp : Except String String) (jitter : Nat → ℚ) :
    List MetricScore :=
  match resp with
  | Except.error e => get_default_metric_scores ("Validation error: " ++ e)
  | Except.ok response_content =>
    match convert_validation_to_metrics
        (parse_validation_response response_content) jitter with
    | Except.ok ms => ms
    | Except.error e => get_default_metric_scores ("Validation error: " ++ e)

/-! ### Orchestrator (`evaluate_all_metrics`, `evaluate_all`) -/

/-- Protocol selection: `"validation agent" in system_prompt.lower()`. -/
def usesValidationProtocol (inp : EvaluationInput) : Bool :=
  pyInStr "validation agent" (pyLower inp.system_prompt)

/-- `evaluate_all_metrics`: protocol dispatch.  Both handlers are total,
so the enclosing `except Exception` (line 95) is never reached. -/
def evaluate_all_metrics (inp : EvaluationInput) (resp : Except String String)
    (jitter : Nat → ℚ) : List MetricScore :=
  if usesValidationProtocol inp then handle_validation_prompt resp jitter
  else handle_evaluation_prompt resp

/-- `METRIC_WEIGHTS.get(name, 1.0 / len(metric_scores))`. -/
def weightOf (name : String) (n : Nat) : ℚ :=
  match (METRIC_WEIGHTS.find? (fun p => p.1 = name)).map (fun p => p.2) with
  | some w => w
  | none => 1 / (n : ℚ)

/-- The weighted overall score of `evaluate_all` (lines 343–346). -/
def overall_score_of (metric_scores : List MetricScore) : ℚ :=
  pyRound2 ((metric_scores.map
    (fun s => s.score * weightOf s.metric metric_scores.length)).sum)

/-! ### Summary and recommendations -/

/-- `_generate_summary` as a function of the summary-call outcome. -/
def generate_summary (resp : Except String String) : String :=
  match resp with
  | Except.ok text => text
  | Except.error _ =>
    "Evaluation completed with mixed results. Review individual metric scores for details."

/-- A stripped line is kept when it is non-empty and does not start with
a hash character. -/
def keepLine (l : List Char) : Bool :=
  !l.isEmpty && !(l.headD (Char.ofNat 32) = hashC)

/-- `_generate_recommendations` as a function of the metric scores and
the recommendations-call outcome.  When no metric scores below 0.7, the
fixed sentence is returned and the gateway outcome is never consulted
(no LLM call is made). -/
def generate_recommendations (metric_scores : List MetricScore)
    (resp : Except String String) : String :=
  let low_scores := metric_scores.filter (fun s => s.score < 0.7)
  if low_scores.isEmpty then
    "Content quality is good. Consider minor refinements based on specific project requirements."
  else
    match resp with
    | Except.error _ =>
      "Review content for accuracy and completeness. Improve clarity and structure. Ensure alignment with requirements."
    | Except.ok response_content =>
      let recommendations :=
        ((response_content.toList.splitOn nlC).map pyStrip).filter keepLine
      (List.intercalate [nlC] (recommendations.take 5)).asString

/-- `evaluate_all`: metric scoring, weighted overall score, summary,
recommendations, and result assembly.  The three gateway outcomes and
the timestamp are explicit inputs. -/
def evaluate_all (inp : EvaluationInput) (evalResp sumResp recResp : Except String String)
    (jitter : Nat → ℚ) (timestamp : String) : EvaluationResult :=
  let metric_scores := evaluate_all_metrics inp evalResp jitter
  let overall_score := overall_score_of metric_scores
  { session_id := inp.session_id
    overall_score := overall_score
    metric_scores := metric_scores
    summary := generate_summary sumResp
    recommendations := generate_recommendations metric_scores recResp
    evaluation_timestamp := timestamp
    evaluation_metadata :=
      { backlog_type := inp.backlog_type
        content_length := inp.generated_content.formatted_output.length
        context_items := inp.context.length } }

/-! ### Numeric lemmas -/

lemma pyRound2_eq_intFloor (x : ℚ) : pyRound2 x = ((⌊x * 100 + 1 / 2⌋ : ℤ) : ℚ) / 100 := by
  unfold pyRound2
  rw [Rat.floor_def' , ← Rat.floor_def]

lemma pyRound2_zero : pyRound2 0 = 0 := by with_unfolding_all decide

lemma pyRound2_one : pyRound2 1 = 1 := by with_unfolding_all decide

lemma pyRound2_half : pyRound2 (1 / 2 : ℚ) = 1 / 2 := by with_unfolding_all decide

lemma pyRound2_mono (x y : ℚ) (h : x ≤ y) : pyRound2 x ≤ pyRound2 y := by
  rw [pyRound2_eq_intFloor, pyRound2_eq_intFloor]
  have hf : ⌊x * 100 + 1 / 2⌋ ≤ ⌊y * 100 + 1 / 2⌋ := Int.floor_mono (by linarith)
  have h2 : ((⌊x * 100 + 1 / 2⌋ : ℤ) : ℚ) ≤ ((⌊y * 100 + 1 / 2⌋ : ℤ) : ℚ) := by
    exact_mod_cast hf
  linarith

lemma pyRound2_idem (x : ℚ) : pyRound2 (pyRound2 x) = pyRound2 x := by
  rw [pyRound2_eq_intFloor, pyRound2_eq_intFloor]
  rw [div_mul_cancel₀]
  · rw [Int.floor_int_add]
    norm_num
  · norm_num

lemma clamp01_nonneg (x : ℚ) : 0 ≤ clamp01 x := by
  unfold clamp01
  simp [le_min_iff, le_max_iff]

lemma clamp01_le_one (x : ℚ) : clamp01 x ≤ 1 := min_le_right _ _

lemma pyRound2_clamp01_nonneg (x : ℚ) : 0 ≤ pyRound2 (clamp01 x) := by
  have h := pyRound2_mono 0 (clamp01 x) (clamp01_nonneg x)
  rw [pyRound2_zero] at h
  exact h

lemma pyRound2_clamp01_le_one (x : ℚ) : pyRound2 (clamp01 x) ≤ 1 := by
  have h := pyRound2_mono (clamp01 x) 1 (clamp01_le_one x)
  rw [pyRound2_one] at h
  exact h

/-- Every score produced anywhere in the pipeline satisfies this: within
bounds and exactly two decimal places. -/
def WellFormedScore (q : ℚ) : Prop := 0 ≤ q ∧ q ≤ 1 ∧ pyRound2 q = q

lemma wellFormedScore_round_clamp (x : ℚ) : WellFormedScore (pyRound2 (clamp01 x)) :=
  ⟨pyRound2_clamp01_nonneg x, pyRound2_clamp01_le_one x, pyRound2_idem _⟩

lemma wellFormedScore_half : WellFormedScore (1 / 2 : ℚ) :=
  ⟨by norm_num, by norm_num, pyRound2_half⟩

lemma wellFormedScore_ofNum : WellFormedScore (0.5 : ℚ) := by
  have h : (0.5 : ℚ) = 1 / 2 := by norm_num
  rw [h]
  exact wellFormedScore_half

/-! ### Lemmas about the fallback metric set -/

lemma mem_get_default_metric_scores (msg : String) (m : MetricScore)
    (h : m ∈ get_default_metric_scores msg) :
    m.score = 0.5 ∧ m.confidence = 0.1 ∧ m.reasoning = some msg := by
  unfold get_default_metric_scores at h
  rw [List.mem_map] at h
  obtain ⟨n, _, rfl⟩ := h
  exact ⟨rfl, rfl, rfl⟩

lemma map_metric_get_default (msg : String) :
    (get_default_metric_scores msg).map (fun m => m.metric) = expected_metrics := by
  unfold get_default_metric_scores
  rw [List.map_map]
  exact List.map_id expected_metrics

/-! ### Lemmas about the metric score normalizer -/

lemma mkBareScore_ok (n : String) (v : ℚ) (m : MetricScore)
    (h : mkBareScore n v = Except.ok m) :
    m.metric = n ∧ m.score = v ∧ m.confidence = 0.7 ∧
      (m.reasoning.isSome → m.score < 0.65) := by
  unfold mkBareScore at h
  split at h
  · injection h with h2
    subst h2
    exact ⟨rfl, rfl, rfl, fun _ => by assumption⟩
  · injection h with h2
    subst h2
    exact ⟨rfl, rfl, rfl, fun hs => by simp at hs⟩

lemma bareScore_ok (n : String) (md : Json) (m : MetricScore)
    (h : bareScore n md = Except.ok m) :
    m.metric = n ∧ WellFormedScore m.score ∧ m.confidence = 0.7 ∧
      (m.reasoning.isSome → m.score < 0.65) := by
  obtain ⟨h1, h2, h3, h4⟩ := mkBareScore_ok n (pyRound2 (clamp01 (bareValue md))) m h
  rw [h2]
  exact ⟨h1, wellFormedScore_round_clamp _, h3, h2 ▸ h4⟩

lemma normalizeMetric_ok (n : String) (d : Option Json) (m : MetricScore)
    (h : normalizeMetric n d = Except.ok m) :
    m.metric = n ∧ WellFormedScore m.score ∧ 0 ≤ m.confidence ∧ m.confidence ≤ 1 ∧
      (m.reasoning.isSome → m.score < 0.65) := by
  cases d with
  | none =>
    unfold normalizeMetric at h
    injection h with h2
    subst h2
    refine ⟨rfl, wellFormedScore_ofNum, by norm_num, by norm_num, fun _ => by norm_num⟩
  | some md =>
    unfold normalizeMetric at h
    have hbare : ∀ hb : bareScore n md = Except.ok m,
        m.metric = n ∧ WellFormedScore m.score ∧ 0 ≤ m.confidence ∧ m.confidence ≤ 1 ∧
          (m.reasoning.isSome → m.score < 0.65) := by
      intro hb
      obtain ⟨h1, h2, h3, h4⟩ := bareScore_ok n md m hb
      exact ⟨h1, h2, by rw [h3]; norm_num, by rw [h3]; norm_num, h4⟩
    cases md with
    | obj fields =>
      dsimp only at h
      cases hsc : jlookup fields "score" with
      | none =>
        rw [hsc] at h
        dsimp only at h
        exact hbare h
      | some scoreJ =>
        rw [hsc] at h
        dsimp only at h
        cases hf : pyFloat scoreJ with
        | error e => rw [hf] at h; simp at h
        | ok sv =>
          rw [hf] at h
          dsimp only at h
          cases hc : pyFloat ((jlookup fields "confidence").getD (Json.num 0.8)) with
          | error e => rw [hc] at h; simp at h
          | ok cv =>
            rw [hc] at h
            dsimp only at h
            split at h
            · cases hr : pyOptStr ((jlookup fields "reasoning").getD
                  (Json.str "No reasoning provided")) with
              | error e => rw [hr] at h; simp at h
              | ok r =>
                rw [hr] at h
                injection h with h2
                subst h2
                exact ⟨rfl, wellFormedScore_round_clamp _, clamp01_nonneg _,
                  clamp01_le_one _, fun _ => by assumption⟩
            · injection h with h2
              subst h2
              exact ⟨rfl, wellFormedScore_round_clamp _, clamp01_nonneg _,
                clamp01_le_one _, fun hs => by simp at hs⟩
    | null => exact hbare h
    | bool b => exact hbare h
    | num q => exact hbare h
    | str s => exact hbare h
    | arr l => exact hbare h

lemma buildGo_forall2 (fields : List (String × Json)) (names : List String)
    (ms : List MetricScore) (h : buildMetricScores.go fields names = Except.ok ms) :
    List.Forall₂ (fun n m => normalizeMetric n (jlookup fields n) = Except.ok m) names ms := by
  induction names generalizing ms with
  | nil =>
    unfold buildMetricScores.go at h
    injection h with h2
    subst h2
    exact List.Forall₂.nil
  | cons n ns ih =>
    unfold buildMetricScores.go at h
    cases hn : normalizeMetric n (jlookup fields n) with
    | error e => rw [hn] at h; simp at h
    | ok m0 =>
      rw [hn] at h
      dsimp only at h
      cases hg : buildMetricScores.go fields ns with
      | error e => rw [hg] at h; simp at h
      | ok ms0 =>
        rw [hg] at h
        injection h with h2
        subst h2
        exact List.Forall₂.cons hn (ih ms0 hg)

lemma buildMetricScores_forall2 (fields : List (String × Json))
    (ms : List MetricScore) (h : buildMetricScores fields = Except.ok ms) :
    List.Forall₂ (fun n m => normalizeMetric n (jlookup fields n) = Except.ok m)
      expected_metrics ms :=
  buildGo_forall2 fields expected_metrics ms h

lemma forall2_normalize_names (fields : List (String × Json)) :
    ∀ (names : List String) (ms : List MetricScore),
    List.Forall₂ (fun n m => normalizeMetric n (jlookup fields n) = Except.ok m) names ms →
    ms.map (fun m => m.metric) = names := by
  intro names ms h2
  induction h2 with
  | nil => rfl
  | cons hr _ ih =>
    rename_i n ms2 _ _
    simp only [List.map_cons, ih]
    rw [(normalizeMetric_ok _ _ _ hr).1]

lemma buildMetricScores_names (fields : List (String × Json))
    (ms : List MetricScore) (h : buildMetricScores fields = Except.ok ms) :
    ms.map (fun m => m.metric) = expected_metrics :=
  forall2_normalize_names fields expected_metrics ms (buildMetricScores_forall2 fields ms h)

/-- Each Protocol-B handler outcome is either a fallback set or a
successfully built list. -/
lemma handle_evaluation_prompt_cases (resp : Except String String) :
    (∃ msg, handle_evaluation_prompt resp = get_default_metric_scores msg) ∨
    (∃ fields ms, buildMetricScores fields = Except.ok ms ∧ ms ≠ [] ∧
      handle_evaluation_prompt resp = ms) := by
  unfold handle_evaluation_prompt
  cases resp with
  | error e => exact Or.inl ⟨_, rfl⟩
  | ok raw =>
    dsimp only
    split
    · exact Or.inl ⟨_, rfl⟩
    · cases hsl : extractSlice (pyStrip raw.toList) with
      | none => exact Or.inl ⟨_, rfl⟩
      | some sl =>
        dsimp only
        cases hdec : jsonDecode sl.asString with
        | error e => exact Or.inl ⟨_, rfl⟩
        | ok j =>
          cases j with
          | obj fields =>
            dsimp only
            cases hb : buildMetricScores fields with
            | error e => dsimp only; exact Or.inl ⟨_, rfl⟩
            | ok ms =>
              dsimp only
              split
              · exact Or.inl ⟨_, rfl⟩
              · rename_i hne
                exact Or.inr ⟨fields, ms, hb, by simpa using hne, rfl⟩
          | null => exact Or.inl ⟨_, rfl⟩
          | bool b => exact Or.inl ⟨_, rfl⟩
          | num q => exact Or.inl ⟨_, rfl⟩
          | str s => exact Or.inl ⟨_, rfl⟩
          | arr l => exact Or.inl ⟨_, rfl⟩

/-! ### Lemmas about the validation conversion -/

lemma mkValidationScore_ok (n : String) (base conf : ℚ) (reasonJ : Json) (v : ℚ)
    (m : MetricScore) (h : mkValidationScore n base conf reasonJ v = Except.ok m) :
    m.metric = n ∧ m.score = pyRound2 (clamp01 (base + v)) ∧ m.confidence = conf ∧
      (m.reasoning.isSome → m.score < 0.65) := by
  unfold mkValidationScore at h
  split at h
  all_goals dsimp only at h
  · split at h
    · simp at h
    · injection h with h2
      subst h2
      exact ⟨rfl, rfl, rfl, fun hs => by simp at hs⟩
  · split at h
    · injection h with h2
      subst h2
      exact ⟨rfl, rfl, rfl, fun _ => by assumption⟩
    · injection h with h2
      subst h2
      exact ⟨rfl, rfl, rfl, fun hs => by simp at hs⟩

lemma mkValidationScore_str (n : String) (base conf : ℚ) (r : String) (v : ℚ) :
    mkValidationScore n base conf (Json.str r) v =
      Except.ok
        { metric := n
          score := pyRound2 (clamp01 (base + v))
          reasoning :=
            if pyRound2 (clamp01 (base + v)) < 0.65 then some r else none
          confidence := conf } := by
  unfold mkValidationScore
  dsimp only
  split <;> simp_all [pyOptStr]

lemma convertGo_forall2 (jitter : Nat → ℚ) (base conf : ℚ) (reasonJ : Json) :
    ∀ (names : List String) (i : Nat) (ms : List MetricScore),
    convert_validation_to_metrics.go jitter base conf reasonJ i names = Except.ok ms →
    List.Forall₂ (fun n m => ∃ v, mkValidationScore n base conf reasonJ v = Except.ok m)
      names ms := by
  intro names
  induction names with
  | nil =>
    intro i ms h
    unfold convert_validation_to_metrics.go at h
    injection h with h2
    subst h2
    exact List.Forall₂.nil
  | cons n ns ih =>
    intro i ms h
    unfold convert_validation_to_metrics.go at h
    cases hm : mkValidationScore n base conf reasonJ (jitter i) with
    | error e => rw [hm] at h; simp at h
    | ok m0 =>
      rw [hm] at h
      dsimp only at h
      cases hg : convert_validation_to_metrics.go jitter base conf reasonJ (i + 1) ns with
      | error e => rw [hg] at h; simp at h
      | ok ms0 =>
        rw [hg] at h
        injection h with h2
        subst h2
        exact List.Forall₂.cons ⟨jitter i, hm⟩ (ih (i + 1) ms0 hg)

lemma forall2_metric_names {R : String → MetricScore → Prop}
    (hR : ∀ n m, R n m → m.metric = n) :
    ∀ (names : List String) (ms : List MetricScore),
    List.Forall₂ R names ms → ms.map (fun m => m.metric) = names := by
  intro names ms h2
  induction h2 with
  | nil => rfl
  | cons hr _ ih =>
    simp only [List.map_cons, ih]
    rw [hR _ _ hr]

lemma convert_validation_names (vr : List (String × Json)) (jitter : Nat → ℚ)
    (ms : List MetricScore) (h : convert_validation_to_metrics vr jitter = Except.ok ms) :
    ms.map (fun m => m.metric) = expected_metrics := by
  unfold convert_validation_to_metrics at h
  exact forall2_metric_names
    (fun n m hm => (mkValidationScore_ok _ _ _ _ _ _ hm.choose_spec).1)
    expected_metrics ms (convertGo_forall2 _ _ _ _ expected_metrics 0 ms h)

lemma handle_validation_prompt_cases (resp : Except String String) (jitter : Nat → ℚ) :
    (∃ msg, handle_validation_prompt resp jitter = get_default_metric_scores msg) ∨
    (∃ vr ms, convert_validation_to_metrics vr jitter = Except.ok ms ∧
      handle_validation_prompt resp jitter = ms) := by
  unfold handle_validation_prompt
  cases resp with
  | error e => exact Or.inl ⟨_, rfl⟩
  | ok content =>
    dsimp only
    cases hc : convert_validation_to_metrics (parse_validation_response content) jitter with
    | error e => dsimp only; exact Or.inl ⟨_, rfl⟩
    | ok ms => dsimp only; exact Or.inr ⟨_, ms, hc, rfl⟩

/-! ### Claim theorems -/

lemma evaluate_all_metrics_names (inp : EvaluationInput) (resp : Except String String)
    (jitter : Nat → ℚ) :
    (evaluate_all_metrics inp resp jitter).map (fun m => m.metric) = expected_metrics := by
  unfold evaluate_all_metrics
  split
  · rcases handle_validation_prompt_cases resp jitter with ⟨msg, heq⟩ | ⟨vr, ms, hc, heq⟩
    · rw [heq]; exact map_metric_get_default msg
    · rw [heq]; exact convert_validation_names vr jitter ms hc
  · rcases handle_evaluation_prompt_cases resp with ⟨msg, heq⟩ | ⟨fields, ms, hb, _, heq⟩
    · rw [heq]; exact map_metric_get_default msg
    · rw [heq]; exact buildMetricScores_names fields ms hb

/-- C2: on every path (Protocol B parse, Protocol A validation, and the
total-failure fallback alike), the returned metric list has exactly the
nine canonical metric names, in canonical order, with no omissions and
no extras. -/
theorem C2_metric_names_canonical (inp : EvaluationInput) (resp : Except String String)
    (jitter : Nat → ℚ) :
    (evaluate_all_metrics inp resp jitter).map (fun m => m.metric) = expected_metrics ∧
    (evaluate_all_metrics inp resp jitter).length = 9 := by
  have h := evaluate_all_metrics_names inp resp jitter
  refine ⟨h, ?_⟩
  have h2 := congrArg List.length h
  rw [List.length_map] at h2
  exact h2

/-- C3: the overall score is the 2-decimal rounding of the weighted sum
over the fixed weight table; the nine weights sum to 1; a name absent
from the table falls back to weight `1 / len(metric_scores)`. -/
theorem C3_overall_weighted_sum :
    (∀ (inp : EvaluationInput) (evalResp sumResp recResp : Except String String)
        (jitter : Nat → ℚ) (ts : String),
      (evaluate_all inp evalResp sumResp recResp jitter ts).overall_score =
        pyRound2 (((evaluate_all_metrics inp evalResp jitter).map
          (fun s => s.score * weightOf s.metric
            (evaluate_all_metrics inp evalResp jitter).length)).sum))
    ∧ (METRIC_WEIGHTS.map (fun p => p.2)).sum = 1
    ∧ (∀ (name : String) (n : Nat),
        METRIC_WEIGHTS.find? (fun p => p.1 = name) = none →
        weightOf name n = 1 / (n : ℚ)) := by
  refine ⟨fun _ _ _ _ _ _ => rfl, by with_unfolding_all decide, ?_⟩
  intro name n h
  unfold weightOf
  rw [h]
  rfl

/-- Closed instance of C3's defensive-fallback clause at a name outside
the weight table. -/
theorem C3_overall_weighted_sum_witness :
    METRIC_WEIGHTS.find? (fun p => p.1 = "sentiment") = none ∧
    weightOf "sentiment" 9 = 1 / 9 :=
  ⟨by with_unfolding_all rfl,
   C3_overall_weighted_sum.2.2 "sentiment" 9 (by with_unfolding_all rfl)⟩

lemma overall_score_of_default (msg : String) :
    overall_score_of (get_default_metric_scores msg) = 0.5 := by
  have h : ((get_default_metric_scores msg).map
      (fun s => s.score * weightOf s.metric
        (get_default_metric_scores msg).length)).sum = 1 / 2 := by
    simp [get_default_metric_scores, expected_metrics, weightOf, METRIC_WEIGHTS]
    norm_num
  unfold overall_score_of
  rw [h, pyRound2_half]
  norm_num

/-- A concrete request used by the closed witness theorems. -/
def sampleInput : EvaluationInput :=
  { session_id := "s-1"
    backlog_type := "user_story"
    user_prompt := "write a story"
    system_prompt := "You are an expert evaluator"
    generated_content := { title := "T", formatted_output := "body" }
    context := ["ctx"]
    template := "tpl" }

/-- A concrete Protocol-A request (its system prompt contains the
substring "validation agent" case-insensitively). -/
def sampleValidationInput : EvaluationInput :=
  { session_id := "s-2"
    backlog_type := "user_story"
    user_prompt := "write a story"
    system_prompt := "You are a Validation Agent for backlog items"
    generated_content := { title := "T", formatted_output := "body" }
    context := ["ctx"]
    template := "tpl" }

/-- C9: a canonical metric absent from a successfully decoded Protocol-B
payload becomes score 0.5, confidence 0.3, with the metric-not-found
reasoning always attached, while every entry of a successfully built
list is the ordinary normalization of its own payload entry. -/
theorem C9_missing_metric_default :
    (∀ name : String, normalizeMetric name none =
      Except.ok
        { metric := name
          score := 0.5
          reasoning := some ("Metric " ++ name ++ " not found in AI response")
          confidence := 0.3 })
    ∧ (∀ (fields : List (String × Json)) (ms : List MetricScore),
        buildMetricScores fields = Except.ok ms →
        List.Forall₂ (fun n m => normalizeMetric n (jlookup fields n) = Except.ok m)
          expected_metrics ms) :=
  ⟨fun _ => rfl, buildMetricScores_forall2⟩

/-- Closed instance of C9 on an empty decoded payload: all nine metrics
are missing and every entry is the not-found default. -/
theorem C9_missing_metric_default_witness :
    buildMetricScores [] =
      Except.ok (expected_metrics.map (fun n =>
        { metric := n
          score := 0.5
          reasoning := some ("Metric " ++ n ++ " not found in AI response")
          confidence := 0.3 })) ∧
    List.Forall₂ (fun n m => normalizeMetric n (jlookup [] n) = Except.ok m)
      expected_metrics
      (expected_metrics.map (fun n =>
        { metric := n
          score := 0.5
          reasoning := some ("Metric " ++ n ++ " not found in AI response")
          confidence := 0.3 })) :=
  ⟨by with_unfolding_all rfl,
   C9_missing_metric_default.2 [] _ (by with_unfolding_all rfl)⟩

lemma normalizeMetric_score_error (name : String) (sub : List (String × Json))
    (sj : Json) (err : String) (hs : jlookup sub "score" = some sj)
    (hf : pyFloat sj = Except.error err) :
    normalizeMetric name (some (Json.obj sub)) = Except.error err := by
  unfold normalizeMetric
  dsimp only
  rw [hs]
  dsimp only
  rw [hf]

lemma buildGo_error_of_mem (fields : List (String × Json)) (name : String) (e : String)
    (hne : normalizeMetric name (jlookup fields name) = Except.error e) :
    ∀ names : List String, name ∈ names →
    ∃ e2, buildMetricScores.go fields names = Except.error e2 := by
  intro names
  induction names with
  | nil => intro h; simp at h
  | cons n ns ih =>
    intro hmem
    unfold buildMetricScores.go
    by_cases hn : n = name
    · subst hn
      rw [hne]
      exact ⟨e, rfl⟩
    · cases hm : normalizeMetric n (jlookup fields n) with
      | error e3 => exact ⟨e3, rfl⟩
      | ok m0 =>
        have hmem2 : name ∈ ns := by
          cases hmem with
          | head => exact absurd rfl hn
          | tail _ h => exact h
        obtain ⟨e2, hgo⟩ := ih hmem2
        rw [hgo]
        exact ⟨e2, rfl⟩

lemma evaluate_all_metrics_build_error (inp : EvaluationInput) (raw : String)
    (jitter : Nat → ℚ) (sl : List Char) (fields : List (String × Json)) (err : String)
    (hproto : usesValidationProtocol inp = false)
    (hne : pyStrip raw.toList ≠ [])
    (hsl : extractSlice (pyStrip raw.toList) = some sl)
    (hdec : jsonDecode sl.asString = Except.ok (Json.obj fields))
    (hb : buildMetricScores fields = Except.error err) :
    evaluate_all_metrics inp (Except.ok raw) jitter =
      get_default_metric_scores ("Evaluation error: " ++ err) := by
  have hne2 : ¬pyStrip raw.data = [] := hne
  have hsl2 : extractSlice (pyStrip raw.data) = some sl := hsl
  unfold evaluate_all_metrics handle_evaluation_prompt
  rw [hproto]
  simp [hne2, hsl2, hdec, hb]

/-- C10: if the decoded Protocol-B payload holds, for any single
canonical metric, a structured record whose score value cannot be
converted to a number, the whole result is the uniform fallback set:
partial per-metric results are discarded. -/
theorem C10_late_conversion_error_discards_partial :
    ∀ (inp : EvaluationInput) (raw : String) (jitter : Nat → ℚ) (sl : List Char)
      (fields sub : List (String × Json)) (name : String) (sj : Json) (err : String),
    usesValidationProtocol inp = false →
    pyStrip raw.toList ≠ [] →
    extractSlice (pyStrip raw.toList) = some sl →
    jsonDecode sl.asString = Except.ok (Json.obj fields) →
    name ∈ expected_metrics →
    jlookup fields name = some (Json.obj sub) →
    jlookup sub "score" = some sj →
    pyFloat sj = Except.error err →
    ∃ msg, evaluate_all_metrics inp (Except.ok raw) jitter =
        get_default_metric_scores ("Evaluation error: " ++ msg) ∧
      ∀ m ∈ evaluate_all_metrics inp (Except.ok raw) jitter,
        m.score = 0.5 ∧ m.confidence = 0.1 ∧
          m.reasoning = some ("Evaluation error: " ++ msg) := by
  intro inp raw jitter sl fields sub name sj err hproto hne hsl hdec hmem hlook hscore hf
  have hname : normalizeMetric name (jlookup fields name) = Except.error err := by
    rw [hlook]
    exact normalizeMetric_score_error name sub sj err hscore hf
  obtain ⟨e2, hb⟩ := buildGo_error_of_mem fields name err hname expected_metrics hmem
  have heval := evaluate_all_metrics_build_error inp raw jitter sl fields e2 hproto hne hsl
    hdec hb
  refine ⟨e2, heval, ?_⟩
  intro m hm
  rw [heval] at hm
  exact mem_get_default_metric_scores _ m hm

/-- Closed instance of C10: a payload whose relevance record has the
non-numeric score string collapses every metric to the fallback. -/
theorem C10_late_conversion_error_witness :
    ∃ msg, evaluate_all_metrics sampleInput
        (Except.ok "\x7b\"relevance\": \x7b\"score\": \"high\"\x7d, \"accuracy\": 0.9\x7d")
        (fun _ => 0) =
      get_default_metric_scores ("Evaluation error: " ++ msg) ∧
      ∀ m ∈ evaluate_all_metrics sampleInput
          (Except.ok "\x7b\"relevance\": \x7b\"score\": \"high\"\x7d, \"accuracy\": 0.9\x7d")
          (fun _ => 0),
        m.score = 0.5 ∧ m.confidence = 0.1 ∧
          m.reasoning = some ("Evaluation error: " ++ msg) :=
  C10_late_conversion_error_discards_partial sampleInput
    "\x7b\"relevance\": \x7b\"score\": \"high\"\x7d, \"accuracy\": 0.9\x7d" (fun _ => 0)
    ("\x7b\"relevance\": \x7b\"score\": \"high\"\x7d, \"accuracy\": 0.9\x7d".toList)
    [("relevance", Json.obj [("score", Json.str "high")]), ("accuracy", Json.num 0.9)]
    [("score", Json.str "high")] "relevance" (Json.str "high")
    "could not convert string to float: high"
    (by with_unfolding_all rfl) (by with_unfolding_all decide)
    (by with_unfolding_all rfl) (by with_unfolding_all rfl)
    (by with_unfolding_all decide) (by with_unfolding_all rfl)
    (by with_unfolding_all rfl) (by with_unfolding_all rfl)

lemma forall2_mem_right {α β : Type} {R : α → β → Prop} :
    ∀ {xs : List α} {ys : List β}, List.Forall₂ R xs ys →
    ∀ b ∈ ys, ∃ a ∈ xs, R a b := by
  intro xs ys h
  induction h with
  | nil => intro b hb; simp at hb
  | cons hr _ ih =>
    intro b hb
    rcases List.mem_cons.mp hb with hb1 | hb2
    · subst hb1
      exact ⟨_, List.mem_cons_self _ _, hr⟩
    · obtain ⟨a, ha, hra⟩ := ih b hb2
      exact ⟨a, List.mem_cons_of_mem _ ha, hra⟩

/-- Every metric score in any orchestrator result comes from the
fallback set, the Protocol-B normalizer, or the Protocol-A conversion
with the fixed base/confidence pairs. -/
lemma mem_evaluate_all_metrics_cases (inp : EvaluationInput) (resp : Except String String)
    (jitter : Nat → ℚ) (m : MetricScore) (hm : m ∈ evaluate_all_metrics inp resp jitter) :
    (∃ msg, m.score = 0.5 ∧ m.confidence = 0.1 ∧ m.reasoning = some msg) ∨
    (∃ n d, normalizeMetric n d = Except.ok m) ∨
    (∃ n b c rj v, ((b = (0.85 : ℚ) ∧ c = (0.9 : ℚ)) ∨ (b = (0.35 : ℚ) ∧ c = (0.8 : ℚ))) ∧
      mkValidationScore n b c rj v = Except.ok m) := by
  unfold evaluate_all_metrics at hm
  split at hm
  · rcases handle_validation_prompt_cases resp jitter with ⟨msg, heq⟩ | ⟨vr, ms, hc, heq⟩
    · rw [heq] at hm
      exact Or.inl ⟨msg, mem_get_default_metric_scores msg m hm⟩
    · rw [heq] at hm
      unfold convert_validation_to_metrics at hc
      have h2 := convertGo_forall2 jitter _ _ _ expected_metrics 0 ms hc
      obtain ⟨n, _, v, hmk⟩ := forall2_mem_right h2 m hm
      refine Or.inr (Or.inr ⟨n, _, _, _, v, ?_, hmk⟩)
      by_cases hp : pyTruthy ((jlookup vr "proceed").getD (Json.bool false)) = true
      · rw [hp]
        exact Or.inl ⟨by simp, by simp⟩
      · rw [Bool.not_eq_true] at hp
        rw [hp]
        exact Or.inr ⟨by simp, by simp⟩
  · rcases handle_evaluation_prompt_cases resp with ⟨msg, heq⟩ | ⟨fields, ms, hb, _, heq⟩
    · rw [heq] at hm
      exact Or.inl ⟨msg, mem_get_default_metric_scores msg m hm⟩
    · rw [heq] at hm
      have h2 := buildMetricScores_forall2 fields ms hb
      obtain ⟨n, _, hn⟩ := forall2_mem_right h2 m hm
      exact Or.inr (Or.inl ⟨n, _, hn⟩)

/-- C4 counterexample: a Protocol-B structured record carrying a JSON
null reasoning yields a metric with score 0.2 < 0.65 whose reasoning is
nevertheless absent, so reasoning is not present for every score below
0.65. -/
theorem C4_counterexample_null_reasoning :
    ∃ m, m ∈ evaluate_all_metrics sampleInput
        (Except.ok "\x7b\"relevance\": \x7b\"score\": 0.2, \"reasoning\": null\x7d\x7d")
        (fun _ => 0) ∧
      m.score < 0.65 ∧ m.reasoning = none := by
  refine ⟨{ metric := "relevance", score := 0.2, reasoning := none, confidence := 0.8 },
    ?_, ?_, rfl⟩
  · with_unfolding_all decide
  · with_unfolding_all decide

/-- C4 amended: reasoning is present only when the final rounded score
is strictly below 0.65 (every metric scoring at least 0.65 has its
reasoning omitted), and every fallback entry carries the failure message
as reasoning with score 0.5 below the threshold.  (The converse —
reasoning present whenever score < 0.65 — fails exactly when the source
record carries a JSON null reasoning, per the counterexample.) -/
theorem C4_reasoning_only_below_threshold :
    (∀ (inp : EvaluationInput) (resp : Except String String) (jitter : Nat → ℚ)
        (m : MetricScore), m ∈ evaluate_all_metrics inp resp jitter →
      m.reasoning.isSome → m.score < 0.65)
    ∧ (∀ msg m, m ∈ get_default_metric_scores msg →
        m.reasoning = some msg ∧ m.score < 0.65) := by
  constructor
  · intro inp resp jitter m hm hsome
    rcases mem_evaluate_all_metrics_cases inp resp jitter m hm with
      ⟨msg, hs, _, _⟩ | ⟨n, d, hn⟩ | ⟨n, b, c, rj, v, _, hmk⟩
    · rw [hs]; norm_num
    · exact (normalizeMetric_ok n d m hn).2.2.2.2 hsome
    · exact (mkValidationScore_ok n b c rj v m hmk).2.2.2 hsome
  · intro msg m hm
    obtain ⟨hs, _, hr⟩ := mem_get_default_metric_scores msg m hm
    exact ⟨hr, by rw [hs]; norm_num⟩

/-- Closed instance of C4: a fallback metric visibly carries reasoning
and its score 0.5 is below the threshold. -/
theorem C4_reasoning_only_below_threshold_witness :
    ({ metric := "relevance", score := 0.5,
       reasoning := some "Evaluation error: boom", confidence := 0.1 } : MetricScore).score
      < 0.65 :=
  C4_reasoning_only_below_threshold.1 sampleInput (Except.error "boom") (fun _ => 0)
    { metric := "relevance", score := 0.5,
      reasoning := some "Evaluation error: boom", confidence := 0.1 }
    (by with_unfolding_all decide) rfl

/-- C7 counterexample: a structured record with confidence 0.856 is
clamped but not rounded, so the produced confidence has three decimal
places, contradicting the claim that confidence is rounded to exactly
two decimals. -/
theorem C7_counterexample_confidence_not_rounded :
    ∃ m, m ∈ evaluate_all_metrics sampleInput
        (Except.ok
          "\x7b\"relevance\": \x7b\"score\": 0.9, \"confidence\": 0.856\x7d\x7d")
        (fun _ => 0) ∧
      m.confidence = 0.856 ∧ pyRound2 m.confidence ≠ m.confidence := by
  refine ⟨{ metric := "relevance", score := 0.9, reasoning := none, confidence := 0.856 },
    ?_, rfl, ?_⟩
  · with_unfolding_all decide
  · with_unfolding_all decide

/-- C7 amended: every metric score lies in [0, 1] and is rounded to two
decimals, and every confidence lies in [0, 1]; confidence is clamped but
not rounded — on the structured path it is taken as given, defaulting to
0.8 when the record has no confidence field, and the bare-numeric path
fixes it at 0.7. -/
theorem C7_bounds_and_rounding :
    (∀ (inp : EvaluationInput) (resp : Except String String) (jitter : Nat → ℚ)
        (m : MetricScore), m ∈ evaluate_all_metrics inp resp jitter →
      0 ≤ m.score ∧ m.score ≤ 1 ∧ pyRound2 m.score = m.score ∧
        0 ≤ m.confidence ∧ m.confidence ≤ 1)
    ∧ (∀ (name : String) (sub : List (String × Json)) (m : MetricScore),
        (jlookup sub "score").isSome → jlookup sub "confidence" = none →
        normalizeMetric name (some (Json.obj sub)) = Except.ok m →
        m.confidence = 0.8)
    ∧ (∀ (name : String) (q : ℚ) (m : MetricScore),
        normalizeMetric name (some (Json.num q)) = Except.ok m →
        m.confidence = 0.7) := by
  refine ⟨?_, ?_, ?_⟩
  · intro inp resp jitter m hm
    rcases mem_evaluate_all_metrics_cases inp resp jitter m hm with
      ⟨msg, hs, hc, _⟩ | ⟨n, d, hn⟩ | ⟨n, b, c, rj, v, hbc, hmk⟩
    · rw [hs, hc]
      refine ⟨by norm_num, by norm_num, ?_, by norm_num, by norm_num⟩
      have h : (0.5 : ℚ) = 1 / 2 := by norm_num
      rw [h, pyRound2_half]
    · obtain ⟨_, ⟨h1, h2, h3⟩, h4, h5, _⟩ := normalizeMetric_ok n d m hn
      exact ⟨h1, h2, h3, h4, h5⟩
    · obtain ⟨_, hs, hc, _⟩ := mkValidationScore_ok n b c rj v m hmk
      rw [hs, hc]
      rcases hbc with ⟨hb, hcf⟩ | ⟨hb, hcf⟩ <;> rw [hcf] <;>
        exact ⟨pyRound2_clamp01_nonneg _, pyRound2_clamp01_le_one _, pyRound2_idem _,
          by norm_num, by norm_num⟩
  · intro name sub m hscore hconf h
    unfold normalizeMetric at h
    dsimp only at h
    cases hsc : jlookup sub "score" with
    | none => rw [hsc] at hscore; simp at hscore
    | some sj =>
      rw [hsc] at h
      dsimp only at h
      cases hf : pyFloat sj with
      | error e => rw [hf] at h; simp at h
      | ok sv =>
        rw [hf] at h
        dsimp only at h
        rw [hconf] at h
        cases hg : pyFloat ((none : Option Json).getD (Json.num 0.8)) with
        | error e => rw [hg] at h; simp at h
        | ok cv =>
          rw [hg] at h
          have hcv : cv = 0.8 := by
            have hg2 : pyFloat (Json.num 0.8) = Except.ok cv := hg
            unfold pyFloat at hg2
            injection hg2 with h3
            exact h3.symm
          dsimp only at h
          split at h
          · cases hr : pyOptStr ((jlookup sub "reasoning").getD
                (Json.str "No reasoning provided")) with
            | error e => rw [hr] at h; simp at h
            | ok r =>
              rw [hr] at h
              injection h with h2
              subst h2
              rw [hcv]
              show clamp01 0.8 = 0.8
              with_unfolding_all decide
          · injection h with h2
            subst h2
            rw [hcv]
            show clamp01 0.8 = 0.8
            with_unfolding_all decide
  · intro name q m h
    unfold normalizeMetric at h
    dsimp only at h
    exact (bareScore_ok name (Json.num q) m h).2.2.1

/-- Closed instance of C7: the gateway-failure fallback metric satisfies
the bounds and score rounding. -/
theorem C7_bounds_and_rounding_witness :
    (0 : ℚ) ≤ 0.5 ∧ (0.5 : ℚ) ≤ 1 ∧ pyRound2 0.5 = 0.5 ∧ (0 : ℚ) ≤ 0.1 ∧ (0.1 : ℚ) ≤ 1 := by
  have h := C7_bounds_and_rounding.1 sampleInput (Except.error "down") (fun _ => 0)
    { metric := "relevance", score := 0.5,
      reasoning := some "Evaluation error: down", confidence := 0.1 }
    (by with_unfolding_all decide)
  exact h

/-- C5: the parser slices the trimmed text from the first opening brace
to the last closing brace when both exist in order and decodes that
substring, signalling no-JSON-found when the braces are missing or
misordered and malformed-JSON (carrying the decoder error) when decoding
fails; concretely, wrapped JSON is extracted, brace-free text signals
no-JSON-found, and an invalid body signals malformed-JSON. -/
theorem C5_parser_first_last_brace :
    (∀ cs : List Char, extractSlice cs =
      if pyFind cs braceO ≠ -1 ∧ pyRfind cs braceC + 1 > pyFind cs braceO then
        some ((cs.drop (pyFind cs braceO).toNat).take
          ((pyRfind cs braceC + 1) - pyFind cs braceO).toNat)
      else none)
    ∧ (∀ (raw : String) (sl : List Char),
        extractSlice (pyStrip raw.toList) = some sl →
        extract_json raw = (jsonDecode sl.asString).mapError
          (ParseErr.malformedJson sl.asString))
    ∧ (∀ raw : String, extractSlice (pyStrip raw.toList) = none →
        extract_json raw = Except.error ParseErr.noJsonFound)
    ∧ extract_json "prefix \x7b \"a\": 1 \x7d suffix" =
        Except.ok (Json.obj [("a", Json.num 1)])
    ∧ extract_json "no opening brace here" = Except.error ParseErr.noJsonFound
    ∧ (∃ msg, extract_json "\x7b\"a\": \x7d" =
        Except.error (ParseErr.malformedJson "\x7b\"a\": \x7d" msg)) := by
  refine ⟨fun cs => rfl, ?_, ?_, ?_, ?_, ⟨"Expecting value", ?_⟩⟩
  · intro raw sl h
    unfold extract_json
    dsimp only
    rw [h]
    cases hdec : jsonDecode sl.asString <;> simp [Except.mapError, hdec]
  · intro raw h
    unfold extract_json
    dsimp only
    rw [h]
  · with_unfolding_all rfl
  · with_unfolding_all rfl
  · with_unfolding_all rfl

/-- Closed instance of C5: slicing and decoding a wrapped object. -/
theorem C5_parser_first_last_brace_witness :
    extract_json "see \x7b \"a\": 1 \x7d end" =
      (jsonDecode ("\x7b \"a\": 1 \x7d".toList).asString).mapError
        (ParseErr.malformedJson ("\x7b \"a\": 1 \x7d".toList).asString) :=
  C5_parser_first_last_brace.2.1 "see \x7b \"a\": 1 \x7d end" ("\x7b \"a\": 1 \x7d".toList)
    (by with_unfolding_all rfl)

lemma convertGo_str_eq (jitter : Nat → ℚ) (base conf : ℚ) (r : String) :
    ∀ (names : List String) (i : Nat),
    convert_validation_to_metrics.go jitter base conf (Json.str r) i names =
      Except.ok ((List.enumFrom i names).map (fun p =>
        { metric := p.2
          score := pyRound2 (clamp01 (base + jitter p.1))
          reasoning :=
            if pyRound2 (clamp01 (base + jitter p.1)) < 0.65 then some r else none
          confidence := conf })) := by
  intro names
  induction names with
  | nil => intro i; rfl
  | cons n ns ih =>
    intro i
    unfold convert_validation_to_metrics.go
    rw [mkValidationScore_str]
    dsimp only
    rw [ih (i + 1)]
    rfl

/-- Converting one of the parse-failure dicts of
`_parse_validation_response` (`proceed` false, `reason` a message
string): nine metrics based at 0.35 with confidence 0.8. -/
lemma convert_parse_failure_dict (msg : String) (jitter : Nat → ℚ) :
    convert_validation_to_metrics
        [("proceed", Json.bool false), ("reason", Json.str msg)] jitter =
      Except.ok ((List.enumFrom 0 expected_metrics).map (fun p =>
        { metric := p.2
          score := pyRound2 (clamp01 (0.35 + jitter p.1))
          reasoning :=
            if pyRound2 (clamp01 (0.35 + jitter p.1)) < 0.65 then some msg else none
          confidence := 0.8 })) := by
  have hp : jlookup [("proceed", Json.bool false), ("reason", Json.str msg)] "proceed" =
      some (Json.bool false) := by with_unfolding_all rfl
  have hr : jlookup [("proceed", Json.bool false), ("reason", Json.str msg)] "reason" =
      some (Json.str msg) := by with_unfolding_all rfl
  unfold convert_validation_to_metrics
  dsimp only
  rw [hp, hr]
  dsimp only [Option.getD]
  simp only [pyTruthy, Bool.false_eq_true, if_false]
  exact convertGo_str_eq jitter 0.35 0.8 msg expected_metrics 0

/-- C1 counterexample: with a Protocol-A (validation-agent) system
prompt and an empty gateway response, the nine metrics score 0.35 at
confidence 0.8 with the no-valid-JSON reason, and the weighted overall
score is 0.35 — not the uniform 0.5/0.1 fallback with overall 0.5 that
the claim asserts for every request. -/
theorem C1_counterexample_validation_empty_response :
    (∃ m ∈ evaluate_all_metrics sampleValidationInput (Except.ok "") (fun _ => 0),
        m.score = 0.35 ∧ m.confidence = 0.8 ∧
          m.reasoning = some "No valid JSON found in validation response") ∧
    overall_score_of
        (evaluate_all_metrics sampleValidationInput (Except.ok "") (fun _ => 0)) = 0.35 ∧
    ¬ overall_score_of
        (evaluate_all_metrics sampleValidationInput (Except.ok "") (fun _ => 0)) = 0.5 := by
  refine ⟨⟨(⟨"relevance", 0.35,
      some "No valid JSON found in validation response", 0.8⟩ : MetricScore),
      ?_, rfl, rfl, rfl⟩, ?_, ?_⟩
  · with_unfolding_all decide
  · with_unfolding_all decide
  · with_unfolding_all decide

/-- C1 amended: the evaluation is total (the embedded orchestrator is a
total function, so the call never raises) and every failure mode is
caught; gateway failure after exhausted retries yields the uniform
fallback set (nine metrics, score 0.5, confidence 0.1, reasoning the
failure message, weighted overall 0.5) under both protocols, and so do
the Protocol-B failure modes (empty response, no JSON substring, JSON
decode error, per-metric conversion error); but under Protocol A an
empty, JSON-less or undecodable response is instead treated as
proceed=false: nine metrics at clamp-round(0.35 + jitter) with
confidence 0.8 carrying the parse-failure reason. -/
theorem C1_failure_handling_by_protocol :
    (∀ msg m, m ∈ get_default_metric_scores msg →
      m.score = 0.5 ∧ m.confidence = 0.1 ∧ m.reasoning = some msg)
    ∧ (∀ msg, overall_score_of (get_default_metric_scores msg) = 0.5)
    ∧ (∀ (inp : EvaluationInput) (e : String) (jitter : Nat → ℚ),
        evaluate_all_metrics inp (Except.error e) jitter =
          get_default_metric_scores
            ((if usesValidationProtocol inp then "Validation error: "
              else "Evaluation error: ") ++ e))
    ∧ (∀ (inp : EvaluationInput) (raw : String) (jitter : Nat → ℚ),
        usesValidationProtocol inp = false → pyStrip raw.toList = [] →
        evaluate_all_metrics inp (Except.ok raw) jitter =
          get_default_metric_scores "Empty response from AI")
    ∧ (∀ (inp : EvaluationInput) (raw : String) (jitter : Nat → ℚ),
        usesValidationProtocol inp = false → pyStrip raw.toList ≠ [] →
        extractSlice (pyStrip raw.toList) = none →
        evaluate_all_metrics inp (Except.ok raw) jitter =
          get_default_metric_scores "No JSON found in response")
    ∧ (∀ (inp : EvaluationInput) (raw : String) (jitter : Nat → ℚ) (sl : List Char)
        (err : String),
        usesValidationProtocol inp = false → pyStrip raw.toList ≠ [] →
        extractSlice (pyStrip raw.toList) = some sl →
        jsonDecode sl.asString = Except.error err →
        evaluate_all_metrics inp (Except.ok raw) jitter =
          get_default_metric_scores ("JSON parsing error: " ++ err))
    ∧ (∀ (inp : EvaluationInput) (raw : String) (jitter : Nat → ℚ) (sl : List Char)
        (fields : List (String × Json)) (err : String),
        usesValidationProtocol inp = false → pyStrip raw.toList ≠ [] →
        extractSlice (pyStrip raw.toList) = some sl →
        jsonDecode sl.asString = Except.ok (Json.obj fields) →
        buildMetricScores fields = Except.error err →
        evaluate_all_metrics inp (Except.ok raw) jitter =
          get_default_metric_scores ("Evaluation error: " ++ err))
    ∧ (∀ (inp : EvaluationInput) (raw : String) (jitter : Nat → ℚ),
        usesValidationProtocol inp = true →
        extractSlice (pyStrip raw.toList) = none →
        evaluate_all_metrics inp (Except.ok raw) jitter =
          (List.enumFrom 0 expected_metrics).map (fun p =>
            { metric := p.2
              score := pyRound2 (clamp01 (0.35 + jitter p.1))
              reasoning :=
                if pyRound2 (clamp01 (0.35 + jitter p.1)) < 0.65 then
                  some "No valid JSON found in validation response" else none
              confidence := 0.8 }))
    ∧ (∀ (inp : EvaluationInput) (raw : String) (jitter : Nat → ℚ) (sl : List Char)
        (err : String),
        usesValidationProtocol inp = true →
        extractSlice (pyStrip raw.toList) = some sl →
        jsonDecode sl.asString = Except.error err →
        evaluate_all_metrics inp (Except.ok raw) jitter =
          (List.enumFrom 0 expected_metrics).map (fun p =>
            { metric := p.2
              score := pyRound2 (clamp01 (0.35 + jitter p.1))
              reasoning :=
                if pyRound2 (clamp01 (0.35 + jitter p.1)) < 0.65 then
                  some ("JSON parsing error: " ++ err) else none
              confidence := 0.8 })) := by
  refine ⟨mem_get_default_metric_scores, overall_score_of_default, ?_, ?_, ?_, ?_, ?_, ?_, ?_⟩
  · intro inp e jitter
    unfold evaluate_all_metrics handle_validation_prompt handle_evaluation_prompt
    split <;> simp [*]
  · intro inp raw jitter hproto hempty
    have hempty2 : pyStrip raw.data = [] := hempty
    unfold evaluate_all_metrics handle_evaluation_prompt
    rw [hproto]
    simp [hempty2]
  · intro inp raw jitter hproto hne hsl
    have hne2 : ¬pyStrip raw.data = [] := hne
    have hsl2 : extractSlice (pyStrip raw.data) = none := hsl
    unfold evaluate_all_metrics handle_evaluation_prompt
    rw [hproto]
    simp [hne2, hsl2]
  · intro inp raw jitter sl err hproto hne hsl hdec
    have hne2 : ¬pyStrip raw.data = [] := hne
    have hsl2 : extractSlice (pyStrip raw.data) = some sl := hsl
    unfold evaluate_all_metrics handle_evaluation_prompt
    rw [hproto]
    simp [hne2, hsl2, hdec]
  · intro inp raw jitter sl fields err hproto hne hsl hdec hb
    have hne2 : ¬pyStrip raw.data = [] := hne
    have hsl2 : extractSlice (pyStrip raw.data) = some sl := hsl
    unfold evaluate_all_metrics handle_evaluation_prompt
    rw [hproto]
    simp [hne2, hsl2, hdec, hb]
  · intro inp raw jitter hproto hsl
    have hparse : parse_validation_response raw =
        [("proceed", Json.bool false),
         ("reason", Json.str "No valid JSON found in validation response")] := by
      unfold parse_validation_response
      dsimp only
      rw [hsl]
    unfold evaluate_all_metrics
    rw [hproto]
    simp only [if_true]
    unfold handle_validation_prompt
    dsimp only
    rw [hparse, convert_parse_failure_dict]
  · intro inp raw jitter sl err hproto hsl hdec
    have hparse : parse_validation_response raw =
        [("proceed", Json.bool false),
         ("reason", Json.str ("JSON parsing error: " ++ err))] := by
      unfold parse_validation_response
      dsimp only
      rw [hsl]
      dsimp only
      rw [hdec]
    unfold evaluate_all_metrics
    rw [hproto]
    simp only [if_true]
    unfold handle_validation_prompt
    dsimp only
    rw [hparse, convert_parse_failure_dict]

/-- Closed instance of C1: a Protocol-B no-JSON response collapses to
the uniform fallback, and the same JSON-less response under Protocol A
yields the proceed=false metric list instead. -/
theorem C1_failure_handling_by_protocol_witness :
    evaluate_all_metrics sampleInput (Except.ok "no json") (fun _ => 0) =
      get_default_metric_scores "No JSON found in response" ∧
    evaluate_all_metrics sampleValidationInput (Except.ok "no json") (fun _ => 0) =
      (List.enumFrom 0 expected_metrics).map (fun p =>
        { metric := p.2
          score := pyRound2 (clamp01 (0.35 + 0))
          reasoning :=
            if pyRound2 (clamp01 (0.35 + 0)) < 0.65 then
              some "No valid JSON found in validation response" else none
          confidence := 0.8 }) :=
  ⟨C1_failure_handling_by_protocol.2.2.2.2.1 sampleInput "no json" (fun _ => 0)
    (by with_unfolding_all rfl) (by with_unfolding_all decide)
    (by with_unfolding_all rfl),
   C1_failure_handling_by_protocol.2.2.2.2.2.2.2.1 sampleValidationInput "no json"
    (fun _ => 0) (by with_unfolding_all rfl) (by with_unfolding_all rfl)⟩

/-- C6: Protocol A is selected exactly when the system prompt contains
the case-insensitive substring "validation agent"; a parsed response
with proceed=true maps every metric to clamp-round(0.85 + jitter) at
confidence 0.9, proceed=false to clamp-round(0.35 + jitter) at
confidence 0.8 with the shared reason attached when visible; a decoded
object missing either required field is replaced by the
invalid-response-format outcome. -/
theorem C6_validation_protocol :
    (∀ inp : EvaluationInput, usesValidationProtocol inp =
        pyInStr "validation agent" (pyLower inp.system_prompt))
    ∧ (∀ (inp : EvaluationInput) (resp : Except String String) (jitter : Nat → ℚ),
        usesValidationProtocol inp = true →
        evaluate_all_metrics inp resp jitter = handle_validation_prompt resp jitter)
    ∧ (∀ (inp : EvaluationInput) (resp : Except String String) (jitter : Nat → ℚ),
        usesValidationProtocol inp = false →
        evaluate_all_metrics inp resp jitter = handle_evaluation_prompt resp)
    ∧ (∀ (vr : List (String × Json)) (jitter : Nat → ℚ) (r : String),
        jlookup vr "proceed" = some (Json.bool true) →
        jlookup vr "reason" = some (Json.str r) →
        convert_validation_to_metrics vr jitter =
          Except.ok ((List.enumFrom 0 expected_metrics).map (fun p =>
            { metric := p.2
              score := pyRound2 (clamp01 (0.85 + jitter p.1))
              reasoning :=
                if pyRound2 (clamp01 (0.85 + jitter p.1)) < 0.65 then some r else none
              confidence := 0.9 })))
    ∧ (∀ (vr : List (String × Json)) (jitter : Nat → ℚ) (r : String),
        jlookup vr "proceed" = some (Json.bool false) →
        jlookup vr "reason" = some (Json.str r) →
        convert_validation_to_metrics vr jitter =
          Except.ok ((List.enumFrom 0 expected_metrics).map (fun p =>
            { metric := p.2
              score := pyRound2 (clamp01 (0.35 + jitter p.1))
              reasoning :=
                if pyRound2 (clamp01 (0.35 + jitter p.1)) < 0.65 then some r else none
              confidence := 0.8 })))
    ∧ (∀ (content : String) (sl : List Char) (fields : List (String × Json)),
        extractSlice (pyStrip content.toList) = some sl →
        jsonDecode sl.asString = Except.ok (Json.obj fields) →
        ((jlookup fields "proceed").isSome = false ∨
          (jlookup fields "reason").isSome = false) →
        parse_validation_response content =
          [("proceed", Json.bool false),
           ("reason", Json.str "Invalid response format from validation agent")]) := by
  refine ⟨fun _ => rfl, ?_, ?_, ?_, ?_, ?_⟩
  · intro inp resp jitter h
    unfold evaluate_all_metrics
    rw [h]
    rfl
  · intro inp resp jitter h
    unfold evaluate_all_metrics
    rw [h]
    rfl
  · intro vr jitter r hp hr
    unfold convert_validation_to_metrics
    dsimp only
    rw [hp, hr]
    dsimp only [Option.getD]
    simp only [pyTruthy, if_true]
    exact convertGo_str_eq jitter 0.85 0.9 r expected_metrics 0
  · intro vr jitter r hp hr
    unfold convert_validation_to_metrics
    dsimp only
    rw [hp, hr]
    dsimp only [Option.getD]
    simp only [pyTruthy, Bool.false_eq_true, if_false]
    exact convertGo_str_eq jitter 0.35 0.8 r expected_metrics 0
  · intro content sl fields hsl hdec hmiss
    unfold parse_validation_response
    dsimp only
    rw [hsl]
    dsimp only
    rw [hdec]
    dsimp only
    rcases hmiss with h1 | h1 <;> simp [h1]

/-- Closed instance of C6: a proceed=true validation outcome with reason
"ok" produces the 0.85-based metric list at confidence 0.9. -/
theorem C6_validation_protocol_witness :
    convert_validation_to_metrics
        [("proceed", Json.bool true), ("reason", Json.str "ok")] (fun _ => 0) =
      Except.ok ((List.enumFrom 0 expected_metrics).map (fun p =>
        { metric := p.2
          score := pyRound2 (clamp01 (0.85 + 0))
          reasoning := if pyRound2 (clamp01 (0.85 + 0)) < 0.65 then some "ok" else none
          confidence := 0.9 })) :=
  C6_validation_protocol.2.2.2.1
    [("proceed", Json.bool true), ("reason", Json.str "ok")] (fun _ => 0) "ok"
    (by with_unfolding_all rfl) (by with_unfolding_all rfl)

/-! ### Lemmas about recommendation line processing -/

/-- The lines of a text: Python `splitlines`-style, an empty text has no
lines, otherwise split on the newline character. -/
def pyLines (cs : List Char) : List (List Char) :=
  if cs.isEmpty then [] else cs.splitOn nlC

lemma splitOnP_elem_not (p : Char → Bool) :
    ∀ (xs l : List Char), l ∈ xs.splitOnP p → ∀ x ∈ l, ¬ p x = true := by
  intro xs
  induction xs with
  | nil =>
    intro l hl
    rw [List.splitOnP_nil, List.mem_singleton] at hl
    subst hl
    intro x hx
    simp at hx
  | cons hd tl ih =>
    intro l hl
    rw [List.splitOnP_cons] at hl
    by_cases hp : p hd
    · rw [if_pos hp] at hl
      rcases List.mem_cons.mp hl with h1 | h2
      · subst h1; intro x hx; simp at hx
      · exact ih l h2
    · rw [if_neg hp] at hl
      cases hS : tl.splitOnP p with
      | nil => exact absurd hS (List.splitOnP_ne_nil p tl)
      | cons s ss =>
        rw [hS] at hl
        simp only [List.modifyHead] at hl
        rcases List.mem_cons.mp hl with h1 | h2
        · subst h1
          intro x hx
          rcases List.mem_cons.mp hx with h3 | h4
          · subst h3; exact hp
          · exact ih s (hS ▸ List.mem_cons_self s ss) x h4
        · exact ih l (hS ▸ List.mem_cons_of_mem s h2)

lemma not_mem_splitOn (a : Char) (xs l : List Char) (hl : l ∈ xs.splitOn a) : a ∉ l := by
  intro hmem
  have h := splitOnP_elem_not (fun x => x == a) xs l hl a hmem
  simp at h

lemma pyStrip_sublist (l : List Char) : List.Sublist (pyStrip l) l := by
  unfold pyStrip
  exact ((List.rdropWhile_prefix Char.isWhitespace (l.dropWhile Char.isWhitespace)).sublist).trans
    ((List.dropWhile_suffix Char.isWhitespace).sublist)

lemma pyStrip_head_not_ws (orig : List Char) (h : pyStrip orig ≠ []) :
    ∃ c ∈ pyStrip orig, ¬ c.isWhitespace = true := by
  unfold pyStrip at h ⊢
  cases hd : (orig.dropWhile Char.isWhitespace).rdropWhile Char.isWhitespace with
  | nil => exact absurd hd h
  | cons d t =>
    refine ⟨d, List.mem_cons_self d t, ?_⟩
    obtain ⟨t2, ht2⟩ := List.rdropWhile_prefix Char.isWhitespace
      (orig.dropWhile Char.isWhitespace)
    rw [hd] at ht2
    have hx : orig.dropWhile Char.isWhitespace = d :: (t ++ t2) := by
      rw [← ht2]; rfl
    have hidem := List.dropWhile_idempotent Char.isWhitespace orig
    have hhead := (List.dropWhile_eq_self_iff).mp hidem
    rw [hx] at hhead
    exact hhead (by simp)

lemma mem_kept_lines (cs l : List Char)
    (hl : l ∈ ((cs.splitOn nlC).map pyStrip).filter keepLine) :
    (∃ c ∈ l, ¬ c.isWhitespace = true) ∧ l.headD (Char.ofNat 32) ≠ hashC ∧ nlC ∉ l := by
  rw [List.mem_filter] at hl
  obtain ⟨hmem, hkeep⟩ := hl
  rw [List.mem_map] at hmem
  obtain ⟨piece, hpiece, rfl⟩ := hmem
  unfold keepLine at hkeep
  rw [Bool.and_eq_true] at hkeep
  obtain ⟨h1, h2⟩ := hkeep
  have hne : pyStrip piece ≠ [] := by
    intro hnil
    rw [hnil] at h1
    simp at h1
  refine ⟨pyStrip_head_not_ws piece hne, ?_, ?_⟩
  · simp only [Bool.not_eq_eq_eq_not, Bool.not_true, decide_eq_false_iff_not] at h2
    exact h2
  · intro hmem2
    exact not_mem_splitOn nlC cs piece hpiece ((pyStrip_sublist piece).subset hmem2)

lemma intercalate_head_ne_nil (l : List Char) (rest : List (List Char)) (hl : l ≠ []) :
    List.intercalate [nlC] (l :: rest) ≠ [] := by
  obtain ⟨t, ht⟩ : ∃ t, List.intercalate [nlC] (l :: rest) = l ++ t := by
    cases rest with
    | nil => exact ⟨[], by simp [List.intercalate, List.intersperse]⟩
    | cons r rs =>
      exact ⟨nlC :: List.intercalate [nlC] (r :: rs),
        by simp [List.intercalate, List.intersperse]⟩
  rw [ht]
  intro hc
  exact hl (List.append_eq_nil.mp hc).1

lemma kept_lines_props (cs : List Char) :
    (pyLines (List.intercalate [nlC]
        (((((cs.splitOn nlC)).map pyStrip).filter keepLine).take 5))).length ≤ 5 ∧
    ∀ l ∈ pyLines (List.intercalate [nlC]
        (((((cs.splitOn nlC)).map pyStrip).filter keepLine).take 5)),
      (∃ c ∈ l, ¬ c.isWhitespace = true) ∧ l.headD (Char.ofNat 32) ≠ hashC := by
  by_cases hk : ((((cs.splitOn nlC)).map pyStrip).filter keepLine).take 5 = []
  · rw [hk]
    have h0 : List.intercalate [nlC] ([] : List (List Char)) = [] := by
      simp [List.intercalate]
    rw [h0]
    constructor
    · simp [pyLines]
    · intro l hl
      simp [pyLines] at hl
  · have hsub : ∀ l ∈ ((((cs.splitOn nlC)).map pyStrip).filter keepLine).take 5,
        l ∈ (((cs.splitOn nlC)).map pyStrip).filter keepLine :=
      fun l hl => List.take_subset 5 _ hl
    have hprops := fun l hl => mem_kept_lines cs l (hsub l hl)
    have hne0 : ∀ l ∈ ((((cs.splitOn nlC)).map pyStrip).filter keepLine).take 5, l ≠ [] := by
      intro l hl hnil
      obtain ⟨⟨c, hc, _⟩, _, _⟩ := hprops l hl
      rw [hnil] at hc
      simp at hc
    have hnl : ∀ l ∈ ((((cs.splitOn nlC)).map pyStrip).filter keepLine).take 5, nlC ∉ l :=
      fun l hl => (hprops l hl).2.2
    have hjoin_ne : List.intercalate [nlC]
        (((((cs.splitOn nlC)).map pyStrip).filter keepLine).take 5) ≠ [] := by
      cases h5 : ((((cs.splitOn nlC)).map pyStrip).filter keepLine).take 5 with
      | nil => exact absurd h5 hk
      | cons l0 rest =>
        exact intercalate_head_ne_nil l0 rest
          (hne0 l0 (h5 ▸ List.mem_cons_self l0 rest))
    have hlines : pyLines (List.intercalate [nlC]
        (((((cs.splitOn nlC)).map pyStrip).filter keepLine).take 5)) =
        ((((cs.splitOn nlC)).map pyStrip).filter keepLine).take 5 := by
      unfold pyLines
      rw [if_neg (by simpa using hjoin_ne)]
      exact List.splitOn_intercalate _ nlC hnl hk
    rw [hlines]
    exact ⟨List.length_take_le 5 _, fun l hl => ⟨(hprops l hl).1, (hprops l hl).2.1⟩⟩

/-- C8: recommendations text has at most five lines, each line non-empty
after trimming and not '#'-led; when all metric scores reach 0.7 the
fixed content-quality-is-good sentence is returned without consulting
the gateway outcome (no recommendations LLM call). -/
theorem C8_recommendations_capped :
    (∀ (ms : List MetricScore) (resp : Except String String),
        (∀ m ∈ ms, 0.7 ≤ m.score) →
        generate_recommendations ms resp =
          "Content quality is good. Consider minor refinements based on specific project requirements.")
    ∧ (∀ (ms : List MetricScore) (resp : Except String String),
        (pyLines (generate_recommendations ms resp).data).length ≤ 5 ∧
        ∀ l ∈ pyLines (generate_recommendations ms resp).data,
          (∃ c ∈ l, ¬ c.isWhitespace = true) ∧ l.headD (Char.ofNat 32) ≠ hashC) := by
  constructor
  · intro ms resp h
    unfold generate_recommendations
    have hfil : ms.filter (fun s => s.score < 0.7) = [] := by
      rw [List.filter_eq_nil_iff]
      intro m hm
      simp only [decide_eq_true_eq, not_lt]
      exact h m hm
    rw [hfil]
    rfl
  · intro ms resp
    unfold generate_recommendations
    dsimp only
    split
    · constructor
      · with_unfolding_all decide
      · with_unfolding_all decide
    · cases resp with
      | error e =>
        dsimp only
        constructor
        · with_unfolding_all decide
        · with_unfolding_all decide
      | ok content =>
        dsimp only
        exact kept_lines_props content.toList

/-- Closed instance of C8: a uniformly high-scoring metric list yields
the fixed sentence whatever the gateway outcome is. -/
theorem C8_recommendations_capped_witness :
    generate_recommendations
        [{ metric := "relevance", score := 0.8, reasoning := none, confidence := 0.9 }]
        (Except.error "gateway down") =
      "Content quality is good. Consider minor refinements based on specific project requirements." :=
  C8_recommendations_capped.1
    [{ metric := "relevance", score := 0.8, reasoning := none, confidence := 0.9 }]
    (Except.error "gateway down") (by with_unfolding_all decide)
